import Mathlib

/-!
# Verification of the tubetime transcription worker

Shallow embedding of the two Python source files of the repository:

* `filter_active_cookies.py` — a standalone script filtering a Netscape
  cookie file down to active `.youtube.com` records;
* `huggingface-space/app.py` — a FastAPI worker exposing a `/transcribe`
  endpoint (bearer-token auth, yt-dlp download, ASR transcription,
  temp-file cleanup) and a `/` health endpoint.

Python strings are modelled as Lean `String`s, with the Python string
operations (`strip`, `split`, `in`, `startswith`, `int(...)`)
reimplemented structurally over `List Char` so that all definitions are
executable and kernel-reducible.  External collaborators (yt-dlp, the
ASR pipeline, the filesystem) are modelled by oracles recording their
outcomes, and the set of temporary files on disk by a small record of
existence flags.
-/

namespace TubeTime

/-! ## Python string primitives -/

/-- The ASCII whitespace characters recognised by Python's `str.strip()` and
`str.split()` (the unicode whitespace extension is irrelevant to cookie
files and not modelled). -/
def isPyWs (c : Char) : Bool :=
  c = ' ' || c = '\t' || c = '\n' || c = '\r' || c = '\x0b' || c = '\x0c'

/-- Split a character list at every character satisfying `p`, keeping empty
chunks (the semantics of Python `str.split(sep)` for a one-character
separator, before any filtering). -/
def splitOnP (p : Char → Bool) : List Char → List (List Char)
  | [] => [[]]
  | c :: cs =>
    if p c then
      [] :: splitOnP p cs
    else
      match splitOnP p cs with
      | [] => [[c]]
      | h :: t => (c :: h) :: t

/-- Python `s.strip()` (ASCII whitespace). -/
def pyStrip (s : String) : String :=
  String.mk (((s.toList.dropWhile isPyWs).reverse.dropWhile isPyWs).reverse)

/-- Python `s.startswith(pre)`. -/
def startsWithStr (s pre : String) : Bool :=
  pre.toList.isPrefixOf s.toList

/-- Substring search on character lists: does `needle` occur contiguously
inside `hay`? -/
def containsSub (needle : List Char) : List Char → Bool
  | [] => needle.isEmpty
  | c :: cs => needle.isPrefixOf (c :: cs) || containsSub needle cs

/-- Python `needle in hay` on strings (substring containment). -/
def strContains (hay needle : String) : Bool :=
  containsSub needle.toList hay.toList

/-- Python `s.split(c)` for a one-character separator: empty chunks are kept,
and the empty string yields `[""]`. -/
def pySplitChar (c : Char) (s : String) : List String :=
  (splitOnP (fun d => d = c) s.toList).map String.mk

/-- Python `s.split('\t')`. -/
def splitTabStr (s : String) : List String :=
  pySplitChar '\t' s

/-- Python `s.split()` (no separator): split on whitespace runs, dropping
empty chunks. -/
def pySplitWs (s : String) : List String :=
  ((splitOnP isPyWs s.toList).filter (fun t => t ≠ [])).map String.mk

/-- Python `sep.join(xs)`. -/
def joinWith (sep : String) (xs : List String) : String :=
  String.mk (List.intercalate sep.toList (xs.map String.toList))

/-- Digit run accepted by Python `int()`: decimal digits with single
underscores allowed between digits (`1_0` parses, `1_`, `_1`, `1__0` do
not).  Accumulates the value; the caller has checked the first character
is a digit. -/
def parseDigitsAux : Nat → List Char → Option Nat
  | acc, [] => some acc
  | acc, c :: cs =>
    if c.isDigit then
      parseDigitsAux (acc * 10 + (c.toNat - 48)) cs
    else if c = '_' then
      match cs with
      | [] => none
      | d :: _ => if d.isDigit then parseDigitsAux acc cs else none
    else none

/-- Parse a nonempty digit run (Python `int()` body after sign). -/
def parseDigits : List Char → Option Nat
  | [] => none
  | c :: cs => if c.isDigit then parseDigitsAux 0 (c :: cs) else none

/-- Python `int(s)` on a string: strips surrounding whitespace, accepts an
optional sign and a decimal digit run (underscores between digits);
returns `none` where Python raises `ValueError`.  (Unicode digits are
not modelled.) -/
def pyInt (s : String) : Option Int :=
  match (pyStrip s).toList with
  | '+' :: rest => (parseDigits rest).map Int.ofNat
  | '-' :: rest => (parseDigits rest).map (fun n => -(Int.ofNat n))
  | rest => (parseDigits rest).map Int.ofNat

/-- Helper for `s.split(sep, 1)`: locate the first occurrence of `sep` and
return the pieces before and after it, if any. -/
def splitOnceAux (sep : Char) : List Char → Option (List Char × List Char)
  | [] => none
  | c :: cs =>
    if c = sep then some ([], cs)
    else (splitOnceAux sep cs).map (fun p => (c :: p.1, p.2))

/-- Python `s.split(sep, 1)` for a one-character separator. -/
def pySplitOnce (sep : Char) (s : String) : List String :=
  match splitOnceAux sep s.toList with
  | none => [s]
  | some (a, b) => [String.mk a, String.mk b]

/-! ## `filter_active_cookies.py`

The script's loop body keeps four pieces of state: the comment lines seen
so far, the retained cookie lines, and the two counters it reports.  The
loop over the input file becomes a fold of `filterCookieLine` over the
list of input lines (each line as Python's file iteration yields it,
trailing newline included — none of the operations used below depend on
its presence). -/

structure CookieFilterState where
  header_lines : List String
  active_cookies : List String
  active_count : Nat
  expired_count : Nat
deriving Repr, DecidableEq

def initFilterState : CookieFilterState :=
  { header_lines := [], active_cookies := [], active_count := 0, expired_count := 0 }

/-- One iteration of the loop in `filter_active_cookies`
(`src/filter_active_cookies.py` lines 19–46).  `parts.getD 4 ""` models
`parts[4]`, which the `len(parts) >= 5` guard makes safe; the
`IndexError` arm of the `except` clause is therefore unreachable and the
`ValueError` arm is the `none` case of `pyInt`. -/
def filterCookieLine (current_time : Int) (st : CookieFilterState) (line : String) :
    CookieFilterState :=
  if startsWithStr line "#" = true then
    { st with header_lines := st.header_lines ++ [line] }
  else if 5 ≤ (splitTabStr (pyStrip line)).length then
    match pyInt ((splitTabStr (pyStrip line))[4]?.getD "") with
    | some expiry =>
      if strContains ((splitTabStr (pyStrip line))[0]?.getD "") ".youtube.com" = true ∧
          (expiry = 0 ∨ expiry > current_time) then
        { st with active_cookies := st.active_cookies ++ [line],
                  active_count := st.active_count + 1 }
      else
        { st with expired_count := st.expired_count + 1 }
    | none =>
      if strContains line ".youtube.com" = true then
        { st with active_cookies := st.active_cookies ++ [line],
                  active_count := st.active_count + 1 }
      else st
  else if strContains line ".youtube.com" = true then
    { st with active_cookies := st.active_cookies ++ [line],
              active_count := st.active_count + 1 }
  else st

/-- The whole run of `filter_active_cookies` over the input file's lines. -/
def filter_active_cookies (current_time : Int) (lines : List String) : CookieFilterState :=
  lines.foldl (filterCookieLine current_time) initFilterState

/-- The lines written to the output file: headers first, then the retained
cookie lines, each verbatim (`src/filter_active_cookies.py` lines 49–56). -/
def outputLines (st : CookieFilterState) : List String :=
  st.header_lines ++ st.active_cookies

/-- A line the script treats as a comment/header. -/
def isCommentLine (line : String) : Bool :=
  startsWithStr line "#"

/-- Characterisation of the lines the loop retains as cookie lines
(derived from the branches of `filterCookieLine` that append to
`active_cookies`). -/
def keepsLine (current_time : Int) (line : String) : Bool :=
  if startsWithStr line "#" = true then false
  else if 5 ≤ (splitTabStr (pyStrip line)).length then
    match pyInt ((splitTabStr (pyStrip line))[4]?.getD "") with
    | some expiry =>
      if strContains ((splitTabStr (pyStrip line))[0]?.getD "") ".youtube.com" = true ∧
          (expiry = 0 ∨ expiry > current_time) then true else false
    | none => strContains line ".youtube.com"
  else strContains line ".youtube.com"

/-- Characterisation of the lines the loop counts in `expired_count`
(derived from the single branch of `filterCookieLine` that increments it:
a well-formed record failing the keep test). -/
def dropsRecord (current_time : Int) (line : String) : Bool :=
  if startsWithStr line "#" = true then false
  else if 5 ≤ (splitTabStr (pyStrip line)).length then
    match pyInt ((splitTabStr (pyStrip line))[4]?.getD "") with
    | some expiry =>
      if strContains ((splitTabStr (pyStrip line))[0]?.getD "") ".youtube.com" = true ∧
          (expiry = 0 ∨ expiry > current_time) then false else true
    | none => false
  else false

/-- Spec-side count, following the claim's words: the number of
non-comment record lines "excluded because their expiry has passed
(expiry > 0 and expiry ≤ now)". -/
def countExpiryPassed (current_time : Int) (lines : List String) : Nat :=
  (lines.filter (fun line =>
    if startsWithStr line "#" = true then false
    else if 5 ≤ (splitTabStr (pyStrip line)).length then
      match pyInt ((splitTabStr (pyStrip line))[4]?.getD "") with
      | some expiry => if 0 < expiry ∧ expiry ≤ current_time then true else false
      | none => false
    else false)).length

/-! ## `huggingface-space/app.py`

The worker's external collaborators are modelled by oracles: the two
`ydl.extract_info` attempts, the existence of the produced WAV file, the
probed duration, and the ASR pipeline call each get their outcome from an
`Env` record.  Errors are the three exception classes the handler's
`except` clauses distinguish.  Temporary files on disk are tracked as
existence flags in `TempFS`.  Durations (Python floats) are modelled as
rationals. -/

/-- Decidable equality for `Except`, needed so that concrete runs of the
model can be checked by `decide`. -/
instance instDecEqExcept {ε α : Type} [DecidableEq ε] [DecidableEq α] :
    DecidableEq (Except ε α) := fun x y =>
  match x, y with
  | .ok a, .ok b =>
    if h : a = b then .isTrue (congrArg Except.ok h)
    else .isFalse (fun hh => h (Except.ok.inj hh))
  | .error a, .error b =>
    if h : a = b then .isTrue (congrArg Except.error h)
    else .isFalse (fun hh => h (Except.error.inj hh))
  | .ok _, .error _ => .isFalse (fun hh => Except.noConfusion hh)
  | .error _, .ok _ => .isFalse (fun hh => Except.noConfusion hh)

structure HTTPExceptionE where
  status_code : Nat
  detail : String
deriving Repr, DecidableEq

/-- The exception classes distinguished by the `except` clauses of
`transcribe`: `yt_dlp.utils.DownloadError`, `fastapi.HTTPException`, and
any other `Exception` (carrying its `str(err)` message). -/
inductive PyErr where
  | downloadError (msg : String)
  | httpError (e : HTTPExceptionE)
  | otherError (msg : String)
deriving Repr, DecidableEq

/-- `_validate_bearer_token` (`app.py` lines 50–56).  Python's
`not authorization` is true for both `None` and the empty string;
`authorization.split(" ", 1)[1]` is safe because the `startswith`
guard has ensured a space exists. -/
def _validate_bearer_token (shared_secret : String) (authorization : Option String) :
    Except HTTPExceptionE Unit :=
  match authorization with
  | none => .error { status_code := 401, detail := "Unauthorized" }
  | some a =>
    if a = "" ∨ startsWithStr a "Bearer " = false then
      .error { status_code := 401, detail := "Unauthorized" }
    else
      let token := pyStrip ((pySplitOnce ' ' a)[1]?.getD "")
      if token ≠ shared_secret then
        .error { status_code := 401, detail := "Unauthorized" }
      else .ok ()

/-- The `info` dict returned by `ydl.extract_info`: only its
`"duration"` entry is read (`none` models a missing key or `None`). -/
structure InfoDict where
  duration : Option Rat
deriving Repr, DecidableEq

/-- Oracle for the download phase: the outcomes of
`ydl.extract_info(youtube_url)` and of the fallback
`ydl.extract_info(video_id)`, whether the WAV file exists afterwards
(`os.path.exists(wav_path)`), and the value `_probe_duration` would
return. -/
structure DlOracle where
  first : Except PyErr InfoDict
  second : Except PyErr InfoDict
  wav_exists : Bool
  probe_duration : Rat
deriving Repr, DecidableEq

/-- The ASR pipeline's result dict: the fields `transcribe` reads.
Segments are kept opaque (their payload is never inspected). -/
structure AsrResult where
  text : String
  chunks : Option (List String)
  language : Option String
  avg_log_prob : Option Rat
deriving Repr, DecidableEq

/-- Request environment: configuration plus the oracles for every external
call made while serving one request.  `youtube_cookies` is the value of
the `youtube_cookies` variable after the getenv / optional base64-decode
step of `app.py` lines 89–107 (the decode rewrites content, not
presence, and only presence and blankness are observable downstream in
this model). -/
structure Env where
  shared_secret : String
  youtube_cookies : Option String
  dl : DlOracle
  asr : Except PyErr AsrResult
deriving Repr, DecidableEq

structure TranscriptionRequest where
  videoId : String
  language : Option String
deriving Repr, DecidableEq

/-- Existence flags for the per-request temporary files: the `mkdtemp`
directory, `cookies.txt` inside it, and the produced WAV file. -/
structure TempFS where
  tmpdir : Bool
  cookie_file : Bool
  wav_file : Bool
deriving Repr, DecidableEq

def TempFS.empty : TempFS :=
  { tmpdir := false, cookie_file := false, wav_file := false }

/-- Python `a or b` for an optional numeric `a` (`None` and `0` are
falsy), as in `info.get("duration") or _probe_duration(wav_path)`. -/
def pyOrRat (a : Option Rat) (b : Rat) : Rat :=
  match a with
  | none => b
  | some x => if x = 0 then b else x

/-- `MAX_DURATION_SECONDS = 15 * 60` (`app.py` line 18), written as its
value `900` so that the constant reduces in the kernel. -/
def MAX_DURATION_SECONDS : Rat := 900

/-- Python's `f"{d:.0f}"` on a duration: round to the nearest integer and
print it, computed as `⌊d + 1/2⌋` directly on the numerator and
denominator (Python breaks ties to even; no statement below depends on a
tie). -/
def format_seconds (d : Rat) : String :=
  toString (Int.fdiv (2 * d.num + (d.den : Int)) (2 * (d.den : Int)))

/-- The 400 `HTTPException` raised at the duration ceiling
(`app.py` lines 201–205). -/
def duration_limit_exc (duration : Rat) : HTTPExceptionE :=
  { status_code := 400,
    detail := "Video exceeds 15-minute limit (" ++ format_seconds duration ++ "s)." }

/-- The guard `if youtube_cookies and youtube_cookies.strip():`
(`app.py` line 110) deciding whether `cookies.txt` is written. -/
def cookie_file_written (cookie_content : Option String) : Bool :=
  match cookie_content with
  | none => false
  | some s => (s != "") && (pyStrip s != "")

/-- The `try`/`except` pair around the two `extract_info` calls
(`app.py` lines 187–193): any exception from the URL attempt is caught
and the video-id attempt is made; its outcome is the result. -/
def extract_result (dl : DlOracle) : Except PyErr InfoDict :=
  match dl.first with
  | .ok info => .ok info
  | .error _ => dl.second

/-- `_download_audio` (`app.py` lines 59–207), returning the duration
(the WAV path itself is not modelled beyond the `wav_file` flag) and
the temp files on disk when it returns or raises.  `mkdtemp` always
creates the directory first; the cookie file is written when the decoded
secret is non-blank (write failures are caught by the source and the
content normalisation of lines 115–181 does not affect existence — it is
modelled separately by `restore_cookie_line` below); a missing WAV is
the `RuntimeError`, and the duration ceiling check raises the 400
`HTTPException` after the full download. -/
def _download_audio (env : Env) : Except PyErr Rat × TempFS :=
  let fs0 : TempFS := { tmpdir := true, cookie_file := false, wav_file := false }
  let fs1 := if cookie_file_written env.youtube_cookies then
    { fs0 with cookie_file := true } else fs0
  match extract_result env.dl with
  | .error e => (.error e, fs1)
  | .ok info =>
    let fs2 := { fs1 with wav_file := env.dl.wav_exists }
    if env.dl.wav_exists = false then
      (.error (.otherError "Failed to produce WAV audio."), fs2)
    else
      let duration := pyOrRat info.duration env.dl.probe_duration
      if duration ≠ 0 ∧ duration > MAX_DURATION_SECONDS then
        (.error (.httpError (duration_limit_exc duration)), fs2)
      else
        (.ok duration, fs2)

/-- `_transcribe_audio` (`app.py` lines 216–242): the pipeline call's
outcome comes from the oracle.  (The English-only branch of the source
only changes which keyword arguments are passed to the external
pipeline, which is unobservable in this model.) -/
def _transcribe_audio (env : Env) : Except PyErr AsrResult :=
  env.asr

/-- The response record built on the success path
(`app.py` lines 289–311).  `asr_result.get("chunks") or []` and
`asr_result.get("language") or payload.language` use Python truthiness;
`wordCount` is `len(text.split())`.  `processingDuration` is a
wall-clock delta, which a shallow embedding cannot observe; it is
modelled as `0`. -/
structure TranscriptionResponse where
  videoId : String
  text : String
  segments : List String
  language : Option String
  confidence : Option Rat
  duration : Rat
  wordCount : Nat
  processingDuration : Rat
deriving Repr, DecidableEq

def shape_response (payload : TranscriptionRequest) (asr : AsrResult) (duration : Rat) :
    TranscriptionResponse :=
  let text := pyStrip asr.text
  { videoId := payload.videoId
    text := text
    segments := match asr.chunks with
      | none => []
      | some cs => cs
    language := match asr.language with
      | none => payload.language
      | some l => if l = "" then payload.language else some l
    confidence := asr.avg_log_prob
    duration := duration
    wordCount := (pySplitWs text).length
    processingDuration := 0 }

/-- The three `except` clauses of `transcribe` (`app.py` lines 312–322):
`DownloadError → 404 str(err)`, `HTTPException` re-raised,
anything else `→ 500 str(err)`. -/
def handler_error_response : PyErr → HTTPExceptionE
  | .downloadError msg => { status_code := 404, detail := msg }
  | .httpError e => e
  | .otherError msg => { status_code := 500, detail := msg }

/-- Which external calls were made during the request. -/
structure Calls where
  fetch_invoked : Bool
  asr_invoked : Bool
deriving Repr, DecidableEq

/-- Outcome of one request to `POST /transcribe`: the HTTP-level result,
the temporary files still on disk after the handler returns, and which
collaborators were invoked. -/
structure ReqOutcome where
  result : Except HTTPExceptionE TranscriptionResponse
  fs : TempFS
  calls : Calls
deriving Repr, DecidableEq

/-- The `finally` block (`app.py` lines 323–332): cleanup runs only when
`wav_path` was assigned (the download returned) and the directory still
exists; it then removes every file and the directory (the swallowed
`OSError` path is the best-effort success case). -/
def cleanup_fs (fs : TempFS) : TempFS :=
  if fs.tmpdir then TempFS.empty else fs

/-- The `transcribe` handler (`app.py` lines 272–332).  `wav_path` starts
as `None` and is assigned only when `_download_audio` returns, so the
`finally` cleanup is reached with `wav_path` set exactly on the branches
that call `cleanup_fs`. -/
def transcribe (env : Env) (payload : TranscriptionRequest)
    (authorization : Option String) : ReqOutcome :=
  match _validate_bearer_token env.shared_secret authorization with
  | .error e =>
    { result := .error e, fs := TempFS.empty,
      calls := { fetch_invoked := false, asr_invoked := false } }
  | .ok _ =>
    match _download_audio env with
    | (.error err, fs) =>
      { result := .error (handler_error_response err), fs := fs,
        calls := { fetch_invoked := true, asr_invoked := false } }
    | (.ok duration, fs) =>
      match _transcribe_audio env with
      | .error err =>
        { result := .error (handler_error_response err), fs := cleanup_fs fs,
          calls := { fetch_invoked := true, asr_invoked := true } }
      | .ok asr =>
        { result := .ok (shape_response payload asr duration), fs := cleanup_fs fs,
          calls := { fetch_invoked := true, asr_invoked := true } }

/-- The result of the `try` block's pipeline before the `except` clauses
map it (download then transcription; the value kept is the duration
handed to the response). -/
def request_body_result (env : Env) : Except PyErr Rat :=
  match (_download_audio env).1 with
  | .error e => .error e
  | .ok d =>
    match _transcribe_audio env with
    | .error e => .error e
    | .ok _ => .ok d

/-- Spec-side reading of "carries a bearer credential exactly equal to
the configured shared secret": the header is literally
`Bearer <secret>`. -/
def carries_exact_bearer (secret : String) (authorization : Option String) : Bool :=
  match authorization with
  | none => false
  | some a => a == "Bearer " ++ secret

/-- The acceptance condition actually implemented by
`_validate_bearer_token`: nonempty header with the `Bearer ` scheme
whose token, after `strip()`, equals the shared secret. -/
def bearer_token_valid (secret : String) (authorization : Option String) : Bool :=
  match authorization with
  | none => false
  | some a =>
    (a != "") && startsWithStr a "Bearer " &&
      (pyStrip ((pySplitOnce ' ' a)[1]?.getD "") == secret)

/-- The health endpoint's response record (`app.py` lines 245–269). -/
structure HealthResponse where
  status : String
  model : String
  device : String
  cookie_status : String
  cookie_length : Nat
  cookie_line_count : Nat
deriving Repr, DecidableEq

/-- Python truthiness of `os.getenv(...)`: `None` and `""` are falsy. -/
def pyTruthyStr : Option String → Bool
  | none => false
  | some s => s != ""

/-- `health` (`app.py` lines 245–269): reports cookie presence, character
length and `len(split('\n'))` line count, never content bytes. -/
def health (model_id : String) (cuda_visible_devices : Option String)
    (youtube_cookies : Option String) : HealthResponse :=
  let truthy := pyTruthyStr youtube_cookies
  { status := "ok"
    model := model_id
    device := if pyTruthyStr cuda_visible_devices then "cuda" else "cpu"
    cookie_status := if truthy then "set" else "not_set"
    cookie_length := if truthy then (youtube_cookies.getD "").length else 0
    cookie_line_count :=
      if truthy then (pySplitChar '\n' (youtube_cookies.getD "")).length else 0 }

/-! ### Cookie delimiter-restoration heuristic (`app.py` lines 122–163) -/

/-- Tab detection over the first ten lines (`app.py` lines 122–132): the
loop breaks only when it finds a non-comment, non-blank line containing a
tab, so `has_tabs` ends up true iff some sampled non-comment, non-blank
line contains one. -/
def has_tabs_sample (content : String) : Bool :=
  ((pySplitChar '\n' content).take 10).any (fun line =>
    (pyStrip line != "") && !(startsWithStr (pyStrip line) "#") &&
      (line.toList.count '\t' > 0))

/-- Per-line delimiter restoration (`app.py` lines 141–159): non-comment,
non-blank lines with at least 7 whitespace tokens are rebuilt as five
tab-joined fields, a tab, the sixth token, a tab, and the remaining
tokens space-joined; 6-token lines get the shorter form; everything else
is kept unchanged. -/
def restore_cookie_line (line : String) : String :=
  if pyStrip line ≠ "" ∧ startsWithStr (pyStrip line) "#" = false then
    if 7 ≤ (pySplitWs line).length then
      joinWith "\t" ((pySplitWs line).take 5) ++ "\t" ++ (pySplitWs line)[5]?.getD "" ++ "\t" ++
        joinWith " " ((pySplitWs line).drop 6)
    else if 6 ≤ (pySplitWs line).length then
      joinWith "\t" ((pySplitWs line).take 5) ++ "\t" ++ (pySplitWs line)[5]?.getD ""
    else line
  else line

/-- The whole normalisation (`app.py` lines 134–161): restoration runs
only when no sampled line has tabs, over every line of the content. -/
def restore_cookie_content (content : String) : String :=
  if has_tabs_sample content then content
  else joinWith "\n" ((pySplitChar '\n' content).map restore_cookie_line)

/-! ## Cookie-filter lemmas -/

/-- One loop iteration, characterised through the three line predicates:
the line is appended to the headers, to the retained cookies, and to the
two counters exactly as `isCommentLine`, `keepsLine` and `dropsRecord`
say. -/
lemma filterCookieLine_spec (current_time : Int) (st : CookieFilterState) (line : String) :
    filterCookieLine current_time st line =
      { header_lines := st.header_lines ++ (if isCommentLine line then [line] else []),
        active_cookies :=
          st.active_cookies ++ (if keepsLine current_time line then [line] else []),
        active_count := st.active_count + (if keepsLine current_time line then 1 else 0),
        expired_count := st.expired_count + (if dropsRecord current_time line then 1 else 0) } := by
  unfold filterCookieLine keepsLine dropsRecord isCommentLine
  by_cases h1 : startsWithStr line "#" = true
  · simp [h1]
  · by_cases h2 : 5 ≤ (splitTabStr (pyStrip line)).length
    · rcases h3 : pyInt ((splitTabStr (pyStrip line))[4]?.getD "") with _ | expiry
      · by_cases h4 : strContains line ".youtube.com" = true <;> simp [h1, h2, h4]
      · by_cases h4 : strContains ((splitTabStr (pyStrip line))[0]?.getD "") ".youtube.com" = true ∧
            (expiry = 0 ∨ expiry > current_time) <;> simp [h1, h2, h4]
    · by_cases h4 : strContains line ".youtube.com" = true <;> simp [h1, h2, h4]

/-- The whole loop as a fold, from any starting state: headers, retained
cookie lines and both counters are the corresponding filters of the
input lines. -/
lemma filter_foldl_spec (current_time : Int) :
    ∀ (lines : List String) (st : CookieFilterState),
      lines.foldl (filterCookieLine current_time) st =
        { header_lines := st.header_lines ++ lines.filter (fun l => isCommentLine l),
          active_cookies :=
            st.active_cookies ++ lines.filter (fun l => keepsLine current_time l),
          active_count :=
            st.active_count + (lines.filter (fun l => keepsLine current_time l)).length,
          expired_count :=
            st.expired_count + (lines.filter (fun l => dropsRecord current_time l)).length }
  | [], st => by simp
  | line :: rest, st => by
    rw [List.foldl_cons, filterCookieLine_spec, filter_foldl_spec current_time rest]
    by_cases h1 : isCommentLine line = true <;>
      by_cases h2 : keepsLine current_time line = true <;>
        by_cases h3 : dropsRecord current_time line = true <;>
          simp [h1, h2, h3, List.filter_cons] <;> omega

/-! ## Claim theorems for the cookie filter -/

/-- C4: a well-formed cookie record line — non-comment, at least five
tab-separated fields, parsable integer expiry — is added to the filter's
output (its headers are untouched, and the line is appended to the
retained cookies) iff its domain field contains `.youtube.com` and its
expiry is `0` or strictly in the future.  In particular a matching
record with expiry `0` is always retained and a matching record with a
past expiry is dropped. -/
theorem c4_wellformed_record_kept_iff (current_time : Int) (st : CookieFilterState)
    (line : String) (expiry : Int)
    (h1 : startsWithStr line "#" = false)
    (h2 : 5 ≤ (splitTabStr (pyStrip line)).length)
    (h3 : pyInt ((splitTabStr (pyStrip line))[4]?.getD "") = some expiry) :
    (filterCookieLine current_time st line).header_lines = st.header_lines ∧
    ((filterCookieLine current_time st line).active_cookies = st.active_cookies ++ [line] ↔
      (strContains ((splitTabStr (pyStrip line))[0]?.getD "") ".youtube.com" = true ∧
        (expiry = 0 ∨ expiry > current_time))) := by
  unfold filterCookieLine
  rw [h3]
  by_cases h4 : strContains ((splitTabStr (pyStrip line))[0]?.getD "") ".youtube.com" = true ∧
      (expiry = 0 ∨ expiry > current_time) <;>
    simp [h1, h2, h4]

/-- Witness for C4 at the spec's own example lines: the session cookie
(expiry `0`) is retained at any current time, the long-expired record is
dropped. -/
theorem c4_witness :
    pyInt ((splitTabStr (pyStrip ".youtube.com\tTRUE\t/\tTRUE\t0\tsid\tabc\n"))[4]?.getD "")
        = some 0 ∧
    (filterCookieLine 2000000000 initFilterState
        ".youtube.com\tTRUE\t/\tTRUE\t0\tsid\tabc\n").active_cookies
      = initFilterState.active_cookies ++ [".youtube.com\tTRUE\t/\tTRUE\t0\tsid\tabc\n"] :=
  ⟨by decide,
    (c4_wellformed_record_kept_iff 2000000000 initFilterState
      ".youtube.com\tTRUE\t/\tTRUE\t0\tsid\tabc\n" 0
      (by decide) (by decide) (by decide)).2.mpr (by decide)⟩

/-- C8: the filter is a total function (no input line can make it raise),
and on a malformed non-comment line — fewer than five tab-separated
fields, or an unparsable expiry field — the whole step keeps the line
(with the active counter bumped) iff the line mentions `.youtube.com`
anywhere, and otherwise leaves the state unchanged. -/
theorem c8_malformed_fail_open (current_time : Int) (st : CookieFilterState) (line : String)
    (h1 : startsWithStr line "#" = false)
    (h2 : (splitTabStr (pyStrip line)).length < 5 ∨
      pyInt ((splitTabStr (pyStrip line))[4]?.getD "") = none) :
    filterCookieLine current_time st line =
      if strContains line ".youtube.com" = true then
        { st with active_cookies := st.active_cookies ++ [line],
                  active_count := st.active_count + 1 }
      else st := by
  unfold filterCookieLine
  rcases h2 with h2 | h2
  · have h5 : ¬ 5 ≤ (splitTabStr (pyStrip line)).length := by omega
    simp [h1, h5]
  · rw [h2]
    by_cases h5 : 5 ≤ (splitTabStr (pyStrip line)).length <;> simp [h1, h5]

/-- Witness for C8: a tab-less line (one field) mentioning the domain is
retained; the same shape without the domain leaves the state unchanged. -/
theorem c8_witness :
    (splitTabStr (pyStrip "malformed .youtube.com junk\n")).length < 5 ∧
    filterCookieLine 0 initFilterState "malformed .youtube.com junk\n" =
      { initFilterState with active_cookies := ["malformed .youtube.com junk\n"],
                             active_count := 1 } := by
  refine ⟨by decide, ?_⟩
  rw [c8_malformed_fail_open 0 initFilterState "malformed .youtube.com junk\n"
    (by decide) (Or.inl (by decide))]
  decide

/-- C9: comment lines (starting with `#`) are written to the output
verbatim, in their original relative order, before the retained cookie
lines: the output's header block is exactly the input's comment lines. -/
theorem c9_comments_preserved (current_time : Int) (lines : List String) :
    (filter_active_cookies current_time lines).header_lines
        = lines.filter (fun l => isCommentLine l) ∧
    outputLines (filter_active_cookies current_time lines)
        = lines.filter (fun l => isCommentLine l)
            ++ (filter_active_cookies current_time lines).active_cookies := by
  unfold filter_active_cookies outputLines
  rw [filter_foldl_spec]
  simp [initFilterState]

/-- Counterexample to C7: a well-formed record for a non-YouTube domain
with expiry `0` (not expired at time 100) is counted in `expired_count`,
so the reported expired count is not the number of records whose expiry
has passed. -/
theorem c7_counterexample :
    (filter_active_cookies 100 ["example.com\tTRUE\t/\tTRUE\t0\tsid\tabc\n"]).expired_count = 1 ∧
    countExpiryPassed 100 ["example.com\tTRUE\t/\tTRUE\t0\tsid\tabc\n"] = 0 ∧
    (filter_active_cookies 100 ["example.com\tTRUE\t/\tTRUE\t0\tsid\tabc\n"]).expired_count ≠
      countExpiryPassed 100 ["example.com\tTRUE\t/\tTRUE\t0\tsid\tabc\n"] := by
  decide

/-- C7 (amended): the reported active count equals the number of cookie
record lines written to the output, and the reported expired count
equals the number of well-formed record lines that fail the keep test
(domain containing `.youtube.com` and expiry `0` or in the future) —
not merely those whose expiry has passed. -/
theorem c7_amended_counts (current_time : Int) (lines : List String) :
    (filter_active_cookies current_time lines).active_count
        = (filter_active_cookies current_time lines).active_cookies.length ∧
    (filter_active_cookies current_time lines).expired_count
        = (lines.filter (fun l => dropsRecord current_time l)).length := by
  unfold filter_active_cookies
  rw [filter_foldl_spec]
  simp [initFilterState]

/-- C6: on a non-blank, non-comment line with at least seven
whitespace-separated tokens, the delimiter-restoration heuristic
produces the first five tokens joined by tabs, a tab, the sixth token, a
tab, and the remaining tokens joined by single spaces. -/
theorem c6_restore_seven_tokens (line : String)
    (h1 : pyStrip line ≠ "")
    (h2 : startsWithStr (pyStrip line) "#" = false)
    (h3 : 7 ≤ (pySplitWs line).length) :
    restore_cookie_line line =
      joinWith "\t" ((pySplitWs line).take 5) ++ "\t" ++ (pySplitWs line)[5]?.getD "" ++ "\t" ++
        joinWith " " ((pySplitWs line).drop 6) := by
  unfold restore_cookie_line
  simp [h1, h2, h3]

/-- Witness for C6: an eight-token line whose last two tokens become the
space-joined value field. -/
theorem c6_witness :
    7 ≤ (pySplitWs ".youtube.com TRUE / TRUE 0 sid abc def").length ∧
    restore_cookie_line ".youtube.com TRUE / TRUE 0 sid abc def" =
      ".youtube.com\tTRUE\t/\tTRUE\t0\tsid\tabc def" := by
  refine ⟨by decide, ?_⟩
  rw [c6_restore_seven_tokens ".youtube.com TRUE / TRUE 0 sid abc def"
    (by decide) (by decide) (by decide)]
  decide

/-! ## Request-handler lemmas -/

/-- `_validate_bearer_token` accepts exactly the headers satisfying
`bearer_token_valid`, and rejects everything else with the 401. -/
lemma validate_eq (secret : String) (auth : Option String) :
    _validate_bearer_token secret auth =
      if bearer_token_valid secret auth = true then .ok ()
      else .error { status_code := 401, detail := "Unauthorized" } := by
  cases auth with
  | none => rfl
  | some a =>
    unfold _validate_bearer_token bearer_token_valid
    by_cases hA : a = ""
    · simp [hA]
    · by_cases hB : startsWithStr a "Bearer " = true
      · by_cases hC : pyStrip ((pySplitOnce ' ' a)[1]?.getD "") = secret <;>
          simp [hA, hB, hC]
      · simp [hA, hB]

/-- A string of length zero is the empty string. -/
lemma string_length_zero {s : String} (h : s.length = 0) : s = "" := by
  cases s with
  | mk data =>
    cases data with
    | nil => rfl
    | cons c cs => simp [String.length] at h

/-! ## Claim theorems for the request handler -/

/-- C2 counterexample: the claim's "exactly equal" fails because the
implementation strips the token.  With shared secret `s`, the header
`Bearer s ` (trailing space) does not carry a credential exactly equal
to the secret, yet the handler does not return 401 and does invoke the
media fetch. -/
theorem c2_counterexample :
    carries_exact_bearer "s" (some "Bearer \ts\t") = false ∧
    (transcribe
        { shared_secret := "s", youtube_cookies := none,
          dl := { first := .ok { duration := some 10 }, second := .ok { duration := some 10 },
                  wav_exists := true, probe_duration := 0 },
          asr := .ok { text := "hi there", chunks := none, language := none,
                       avg_log_prob := none } }
        { videoId := "v", language := none } (some "Bearer \ts\t")).calls.fetch_invoked = true ∧
    (transcribe
        { shared_secret := "s", youtube_cookies := none,
          dl := { first := .ok { duration := some 10 }, second := .ok { duration := some 10 },
                  wav_exists := true, probe_duration := 0 },
          asr := .ok { text := "hi there", chunks := none, language := none,
                       avg_log_prob := none } }
        { videoId := "v", language := none } (some "Bearer \ts\t")).result ≠
      .error { status_code := 401, detail := "Unauthorized" } := by
  decide

/-- C2 (amended): a request whose Authorization header does not carry a
`Bearer `-prefixed credential that, after stripping surrounding
whitespace, equals the shared secret, is rejected with 401, no temporary
file is created, and neither the media fetch nor the transcription
engine is invoked. -/
theorem c2_unauthorized_rejected (env : Env) (payload : TranscriptionRequest)
    (authorization : Option String)
    (h : bearer_token_valid env.shared_secret authorization = false) :
    transcribe env payload authorization =
      { result := .error { status_code := 401, detail := "Unauthorized" },
        fs := TempFS.empty,
        calls := { fetch_invoked := false, asr_invoked := false } } := by
  unfold transcribe
  rw [validate_eq, h]
  simp

/-- Witness for C2 (amended): a header with the wrong scheme is rejected
and reaches no collaborator. -/
theorem c2_witness :
    bearer_token_valid "s" (some "Basic s") = false ∧
    transcribe
        { shared_secret := "s", youtube_cookies := none,
          dl := { first := .ok { duration := some 10 }, second := .ok { duration := some 10 },
                  wav_exists := true, probe_duration := 0 },
          asr := .ok { text := "hi", chunks := none, language := none, avg_log_prob := none } }
        { videoId := "v", language := none } (some "Basic s") =
      { result := .error { status_code := 401, detail := "Unauthorized" },
        fs := TempFS.empty,
        calls := { fetch_invoked := false, asr_invoked := false } } :=
  ⟨by decide,
    c2_unauthorized_rejected
      { shared_secret := "s", youtube_cookies := none,
        dl := { first := .ok { duration := some 10 }, second := .ok { duration := some 10 },
                wav_exists := true, probe_duration := 0 },
        asr := .ok { text := "hi", chunks := none, language := none, avg_log_prob := none } }
      { videoId := "v", language := none } (some "Basic s") (by decide)⟩

/-- C3: when the fetch succeeds and the effective duration
(`info.get("duration") or probe`) exceeds the 900-second ceiling, the
handler's result is the 400 client error raised at the ceiling, and the
transcription engine is never invoked. -/
theorem c3_duration_limit (env : Env) (payload : TranscriptionRequest)
    (authorization : Option String) (info : InfoDict)
    (hauth : bearer_token_valid env.shared_secret authorization = true)
    (hinfo : extract_result env.dl = .ok info)
    (hwav : env.dl.wav_exists = true)
    (hdur : pyOrRat info.duration env.dl.probe_duration > MAX_DURATION_SECONDS) :
    (transcribe env payload authorization).result =
      .error (duration_limit_exc (pyOrRat info.duration env.dl.probe_duration)) ∧
    (transcribe env payload authorization).calls.asr_invoked = false := by
  have hne : pyOrRat info.duration env.dl.probe_duration ≠ 0 := by
    intro h0
    rw [h0] at hdur
    exact absurd hdur (by norm_num [MAX_DURATION_SECONDS])
  have hdl : _download_audio env =
      (.error (.httpError (duration_limit_exc (pyOrRat info.duration env.dl.probe_duration))),
        { tmpdir := true, cookie_file := cookie_file_written env.youtube_cookies,
          wav_file := true }) := by
    unfold _download_audio
    rw [hinfo]
    by_cases hc : cookie_file_written env.youtube_cookies = true <;>
      simp [hc, hwav, hne, hdur]
  unfold transcribe
  rw [validate_eq, hauth]
  simp only [if_pos]
  rw [hdl]
  simp [handler_error_response]

/-- Witness for C3: a 901-second video is rejected with the 400 error and
the engine is not called. -/
theorem c3_witness :
    bearer_token_valid "s" (some "Bearer s") = true ∧
    pyOrRat (InfoDict.mk (some 901)).duration (0 : Rat) > MAX_DURATION_SECONDS ∧
    (transcribe
        { shared_secret := "s", youtube_cookies := none,
          dl := { first := .ok { duration := some 901 }, second := .ok { duration := some 901 },
                  wav_exists := true, probe_duration := 0 },
          asr := .ok { text := "hi", chunks := none, language := none, avg_log_prob := none } }
        { videoId := "v", language := none } (some "Bearer s")).calls.asr_invoked = false :=
  ⟨by decide, by decide,
    (c3_duration_limit
      { shared_secret := "s", youtube_cookies := none,
        dl := { first := .ok { duration := some 901 }, second := .ok { duration := some 901 },
                wav_exists := true, probe_duration := 0 },
        asr := .ok { text := "hi", chunks := none, language := none, avg_log_prob := none } }
      { videoId := "v", language := none } (some "Bearer s") { duration := some 901 }
      (by decide) (by decide) (by decide) (by decide)).2⟩

/-- C5: for an authenticated request, every error raised by the try
block's pipeline is mapped exactly as the except clauses say: a
downloader error to 404 with its message, an inner `HTTPException`
re-raised with its original status and detail, and any other error to a
500 carrying the underlying message. -/
theorem c5_error_mapping (env : Env) (payload : TranscriptionRequest)
    (authorization : Option String)
    (hauth : bearer_token_valid env.shared_secret authorization = true) :
    (∀ msg, request_body_result env = .error (.downloadError msg) →
      (transcribe env payload authorization).result =
        .error { status_code := 404, detail := msg }) ∧
    (∀ e, request_body_result env = .error (.httpError e) →
      (transcribe env payload authorization).result = .error e) ∧
    (∀ msg, request_body_result env = .error (.otherError msg) →
      (transcribe env payload authorization).result =
        .error { status_code := 500, detail := msg }) := by
  have key : ∀ err, request_body_result env = .error err →
      (transcribe env payload authorization).result = .error (handler_error_response err) := by
    intro err herr
    unfold transcribe
    rw [validate_eq, hauth]
    simp only [if_pos]
    unfold request_body_result at herr
    rcases hda : _download_audio env with ⟨dres, fs⟩
    rw [hda] at herr
    cases dres with
    | error e2 =>
      simp only at herr
      cases herr
      simp
    | ok d =>
      cases hasr : _transcribe_audio env with
      | error e2 =>
        rw [hasr] at herr
        simp only at herr
        cases herr
        simp
      | ok a =>
        rw [hasr] at herr
        simp at herr
  exact ⟨fun msg h => key _ h, fun e h => key _ h, fun msg h => key _ h⟩

/-- Witness for C5: both download attempts fail with a downloader error;
the handler reports 404 with the second attempt's message. -/
theorem c5_witness :
    bearer_token_valid "s" (some "Bearer s") = true ∧
    (transcribe
        { shared_secret := "s", youtube_cookies := none,
          dl := { first := .error (.downloadError "url failed"),
                  second := .error (.downloadError "boom"),
                  wav_exists := false, probe_duration := 0 },
          asr := .ok { text := "hi", chunks := none, language := none, avg_log_prob := none } }
        { videoId := "v", language := none } (some "Bearer s")).result =
      .error { status_code := 404, detail := "boom" } :=
  ⟨by decide,
    (c5_error_mapping
      { shared_secret := "s", youtube_cookies := none,
        dl := { first := .error (.downloadError "url failed"),
                second := .error (.downloadError "boom"),
                wav_exists := false, probe_duration := 0 },
        asr := .ok { text := "hi", chunks := none, language := none, avg_log_prob := none } }
      { videoId := "v", language := none } (some "Bearer s") (by decide)).1 "boom" (by decide)⟩

/-- C1 is violated by the code: cleanup in the `finally` block is guarded
by `if wav_path`, and `wav_path` is still `None` whenever
`_download_audio` raises — so on the duration-limit rejection (and every
other download-phase failure) the temporary directory, the cookie file
and the fully downloaded WAV remain on disk after the handler returns.
This run evaluates the model at such a request: valid auth, cookies
configured, download succeeded, duration 901 s. -/
theorem c1_cleanup_leak :
    (transcribe
        { shared_secret := "s", youtube_cookies := some "cookie data",
          dl := { first := .ok { duration := some 901 }, second := .ok { duration := some 901 },
                  wav_exists := true, probe_duration := 0 },
          asr := .ok { text := "hi", chunks := none, language := none, avg_log_prob := none } }
        { videoId := "v", language := none } (some "Bearer s")).result =
      .error { status_code := 400, detail := "Video exceeds 15-minute limit (901s)." } ∧
    (transcribe
        { shared_secret := "s", youtube_cookies := some "cookie data",
          dl := { first := .ok { duration := some 901 }, second := .ok { duration := some 901 },
                  wav_exists := true, probe_duration := 0 },
          asr := .ok { text := "hi", chunks := none, language := none, avg_log_prob := none } }
        { videoId := "v", language := none } (some "Bearer s")).fs =
      { tmpdir := true, cookie_file := true, wav_file := true } := by
  decide

/-- C10: the health endpoint's response is a function of the cookie
secret only through its presence, character length and
newline-separated line count — two set secrets agreeing on length and
line count produce identical responses, so no content bytes leak. -/
theorem c10_health_noninterference (model_id : String) (cuda : Option String)
    (s1 s2 : String)
    (hlen : s1.length = s2.length)
    (hlines : (pySplitChar '\n' s1).length = (pySplitChar '\n' s2).length) :
    health model_id cuda (some s1) = health model_id cuda (some s2) := by
  by_cases h1 : s1 = ""
  · have h0 : s2.length = 0 := by rw [← hlen, h1]; decide
    rw [h1, string_length_zero h0]
  · have h2 : s2 ≠ "" := by
      intro hh
      exact h1 (string_length_zero (by rw [hlen, hh]; decide))
    unfold health pyTruthyStr
    simp [h1, h2, hlen, hlines]

/-- Witness for C10: two different two-character, one-line secrets give
the same health response. -/
theorem c10_witness :
    ("ab" : String).length = ("cd" : String).length ∧
    health "model" none (some "ab") = health "model" none (some "cd") :=
  ⟨by decide, c10_health_noninterference "model" none "ab" "cd" (by decide) (by decide)⟩

end TubeTime
